import Mathlib

/-!
Verification of the x402 payment-settlement engine of the 4mica polygon demo
server (src/server/src/x402/{mod,native,facilitator,config,model}.rs and
src/server/src/error.rs), as a shallow embedding in Lean.

Strings are embedded as Lean String values and manipulated at the character
level; the Rust code indexes and slices by bytes, which coincides with
character positions on the ASCII data (addresses, topics, hex amounts) this
engine handles.  Rust str::to_lowercase and char::is_whitespace are full
Unicode; the Lean counterparts used here agree with them on ASCII.

The 256-bit unsigned integers of the SDK (U256) are embedded as Nat with the
2^256 bound enforced by the parsing functions, which reject overflow exactly
as the SDK parsers do.  The textual rendering of a U256 inside error messages
(Rust's Debug formatting) is embedded as decimal toString; no claim in this
development depends on that exact rendering, only on the fixed message
templates around it.
-/

namespace X402

/-- JSON values, embedding the serde_json Value type as far as the engine
inspects it (null, booleans, integers, strings, arrays, objects).  Numbers
are embedded as Int: the engine only ever coerces them to decimal text. -/
inductive Json where
  | null : Json
  | bool : Bool → Json
  | num : Int → Json
  | str : String → Json
  | arr : List Json → Json
  | obj : List (String × Json) → Json

/-- PaymentError from src/server/src/error.rs (the payment-relevant
constructors; the two decode errors carry the upstream error display text). -/
inductive PaymentError where
  | Base64Decode : String → PaymentError
  | JsonParse : String → PaymentError
  | Facilitator : String → PaymentError
  | SettlementFailed : String → PaymentError
  | NoMatchingRequirements : String → String → PaymentError
  | UnsupportedScheme : String → PaymentError
  | MissingTxHash : PaymentError
  | Onchain : String → PaymentError
deriving DecidableEq, Repr

/-- Lowercase a character list (Rust str::to_lowercase, ASCII fragment). -/
def lowerChars (cs : List Char) : List Char := cs.map Char.toLower

/-- Lowercase a string. -/
def toLowerStr (s : String) : String := String.mk (lowerChars s.toList)

/-- Rust str::trim_start_matches with the pattern "0x": repeatedly removes a
leading "0x" (case-sensitively). -/
def trim0x : List Char → List Char
  | '0' :: 'x' :: rest => trim0x rest
  | cs => cs

/-- Rust str::strip_prefix with the pattern "0x": removes one leading "0x"
if present, returning none otherwise. -/
def strip0xOnce : List Char → Option (List Char)
  | '0' :: 'x' :: rest => some rest
  | _ => none

/-- Rust str::trim (whitespace removed from both ends; ASCII fragment). -/
def trimWs (cs : List Char) : List Char :=
  ((cs.dropWhile Char.isWhitespace).reverse.dropWhile Char.isWhitespace).reverse

/-- Value of one hexadecimal digit (both cases), as the SDK parser accepts. -/
def hexDigitVal (c : Char) : Option Nat :=
  if '0' ≤ c ∧ c ≤ '9' then some (c.toNat - '0'.toNat)
  else if 'a' ≤ c ∧ c ≤ 'f' then some (c.toNat - 'a'.toNat + 10)
  else if 'A' ≤ c ∧ c ≤ 'F' then some (c.toNat - 'A'.toNat + 10)
  else none

/-- Value of one decimal digit. -/
def decDigitVal (c : Char) : Option Nat :=
  if '0' ≤ c ∧ c ≤ '9' then some (c.toNat - '0'.toNat) else none

/-- Accumulate digits of the given base over a character list. -/
def accumDigits (digit : Char → Option Nat) (base : Nat) :
    List Char → Nat → Option Nat
  | [], acc => some acc
  | c :: cs, acc =>
    match digit c with
    | some d => accumDigits digit base cs (base * acc + d)
    | none => none

/-- U256::from_str_radix(s, 16) of the SDK: hexadecimal digits only, empty
input and values of 2^256 or more rejected. -/
def parseHexU256 (cs : List Char) : Option Nat :=
  if cs = [] then none
  else match accumDigits hexDigitVal 16 cs 0 with
    | some v => if v < 2 ^ 256 then some v else none
    | none => none

/-- U256::from_str of the SDK on inputs without a "0x" lead: decimal digits
only, empty input and values of 2^256 or more rejected. -/
def parseDecU256 (cs : List Char) : Option Nat :=
  if cs = [] then none
  else match accumDigits decDigitVal 10 cs 0 with
    | some v => if v < 2 ^ 256 then some v else none
    | none => none

/-- parse_u256_value from src/server/src/x402/mod.rs (the identical function
appears in native.rs and fourmica.rs): trim, reject empty, then hex after a
single stripped "0x" lead, else decimal.  The upstream parse-error display
appended to the message text in the source is omitted here; no claim depends
on it. -/
def parse_u256_value (raw : String) : Except PaymentError Nat :=
  let trimmed := trimWs raw.toList
  if trimmed = [] then .error (.Onchain "empty numeric value")
  else
    match strip0xOnce trimmed with
    | some stripped =>
      match parseHexU256 stripped with
      | some v => .ok v
      | none => .error (.Onchain ("invalid hex value " ++ String.mk trimmed))
    | none =>
      match parseDecU256 trimmed with
      | some v => .ok v
      | none => .error (.Onchain ("invalid decimal value " ++ String.mk trimmed))

/-- normalize_address from mod.rs line 189 and native.rs line 90:
strip "0x" leads, then lowercase. -/
def normalize_address (addr : String) : String :=
  String.mk (lowerChars (trim0x addr.toList))

/-- topic_to_address from mod.rs line 193: strip "0x" leads; reject fewer
than 40 characters; keep the last 40, lowercased. -/
def topic_to_address (topic : String) : Option String :=
  let clean := trim0x topic.toList
  if clean.length < 40 then none
  else some (String.mk (lowerChars (clean.drop (clean.length - 40))))

/-- normalize_topic from native.rs line 94: strip "0x" leads, lowercase,
re-attach a single "0x" lead. -/
def normalize_topic (topic : String) : String :=
  "0x" ++ String.mk (lowerChars (trim0x topic.toList))

/-- parse_topic_address from native.rs line 99: strip "0x" leads; require
exactly 64 characters; keep the last 40, lowercased. -/
def parse_topic_address (topic : String) : Option String :=
  let stripped := trim0x topic.toList
  if stripped.length ≠ 64 then none
  else some (String.mk (lowerChars (stripped.drop 24)))

/-- The ERC-20 Transfer event signature constant of mod.rs line 24 and
native.rs line 11. -/
def ERC20_TRANSFER_TOPIC : String :=
  "0xddf252ad1be2c89b69c2b068fc378daa952ba7f163c4a11628f55a4df523b3ef"

/-- The all-zero address constant of mod.rs line 26 and native.rs line 10. -/
def ZERO_ADDRESS : String := "0000000000000000000000000000000000000000"

/-- RpcLog of mod.rs line 128 and native.rs line 50. -/
structure RpcLog where
  address : String
  topics : List String
  data : String
deriving DecidableEq, Repr

/-- RpcReceipt of mod.rs line 136 and native.rs line 28 (the dead fields
to and transaction_hash are omitted; they are never read). -/
structure RpcReceipt where
  status : Option String
  blockNumber : Option String
  logs : List RpcLog
deriving DecidableEq, Repr

/-- RpcTransaction of mod.rs line 148 and native.rs line 41 (the dead field
hash omitted; the source field named to is called toAddr here because to is
reserved in Lean). -/
structure RpcTransaction where
  toAddr : Option String
  value : Option String
deriving DecidableEq, Repr

/-- is_success_status from mod.rs line 387, textually identical in
native.rs line 121: the status parses and is strictly positive. -/
def is_success_status (status : Option String) : Bool :=
  match status with
  | none => false
  | some s =>
    match parse_u256_value s with
    | .ok v => decide (0 < v)
    | .error _ => false

namespace Onchain

/-- The log predicate of validate_erc20_transfer in mod.rs lines 400-410:
normalized emitting address equals the asset, the lowercased first topic
equals the Transfer signature constant, and the third topic decodes (last-40
rule) to the payee. -/
def transferLogMatch (asset pay_to : String) (log : RpcLog) : Bool :=
  decide (normalize_address log.address = asset)
  && decide ((log.topics.head?).map toLowerStr = some ERC20_TRANSFER_TOPIC)
  && (((log.topics.get? 2).bind topic_to_address).map
        (fun addr => decide (addr = pay_to))).getD false

/-- validate_erc20_transfer from src/server/src/x402/mod.rs lines 394-425:
find the first log matching the three gates, then parse its data and require
it to reach the required amount. -/
def validate_erc20_transfer (receipt : RpcReceipt) (asset pay_to : String)
    (required_amount : Nat) : Except PaymentError Unit :=
  match receipt.logs.find? (transferLogMatch asset pay_to) with
  | none =>
    .error (.Onchain ("no transfer to " ++ pay_to ++ " found for asset " ++ asset))
  | some log =>
    match parse_u256_value log.data with
    | .error e => .error e
    | .ok amount =>
      if amount < required_amount then
        .error (.Onchain ("transfer amount " ++ toString amount ++
          " below required " ++ toString required_amount))
      else .ok ()

end Onchain

namespace Native

/-- The loop body of validate_erc20_transfer in src/server/src/x402/native.rs
lines 169-190, one clause per continue branch, in source order. -/
def erc20Scan (asset pay_to : String) (required_amount : Nat) :
    List RpcLog → Except PaymentError Unit
  | [] => .error (.Onchain "erc20 transfer not found in transaction logs")
  | log :: rest =>
    if normalize_address log.address ≠ asset then
      erc20Scan asset pay_to required_amount rest
    else if log.topics.length < 3 then
      erc20Scan asset pay_to required_amount rest
    else if normalize_topic (log.topics.getD 0 "") ≠ normalize_topic ERC20_TRANSFER_TOPIC then
      erc20Scan asset pay_to required_amount rest
    else
      match parse_topic_address (log.topics.getD 2 "") with
      | none => erc20Scan asset pay_to required_amount rest
      | some to_addr =>
        if to_addr ≠ pay_to then
          erc20Scan asset pay_to required_amount rest
        else
          match parse_u256_value log.data with
          | .error e => .error e
          | .ok value =>
            if required_amount ≤ value then .ok ()
            else erc20Scan asset pay_to required_amount rest

/-- validate_erc20_transfer from src/server/src/x402/native.rs lines 162-194:
scan the receipt logs in order with the strict gates. -/
def validate_erc20_transfer (receipt : RpcReceipt) (asset pay_to : String)
    (required_amount : Nat) : Except PaymentError Unit :=
  erc20Scan asset pay_to required_amount receipt.logs

/-- The strict gating of the native matcher: emitting address, at least three
topics, signature after normalization, recipient topic of exactly 64 hex
characters decoding to the payee. -/
def strictGate (asset pay_to : String) (log : RpcLog) : Bool :=
  decide (normalize_address log.address = asset)
  && decide (3 ≤ log.topics.length)
  && decide (normalize_topic (log.topics.getD 0 "") = normalize_topic ERC20_TRANSFER_TOPIC)
  && decide (parse_topic_address (log.topics.getD 2 "") = some pay_to)

/-- A log satisfying all four conditions of the claim: the strict gates plus
a data field parsing to at least the required amount. -/
def satisfiesTransfer (asset pay_to : String) (required_amount : Nat)
    (log : RpcLog) : Bool :=
  strictGate asset pay_to log
  && (match parse_u256_value log.data with
      | .ok v => decide (required_amount ≤ v)
      | .error _ => false)

end Native

/-- validate_native_transfer from mod.rs lines 427-459 (textually identical
in native.rs lines 128-160), with the eth_getTransactionByHash response given
as input: check the normalized recipient, then the parsed value against the
required amount, the value field defaulting to 0x0. -/
def validate_native_transfer (tx : RpcTransaction) (pay_to : String)
    (required_amount : Nat) : Except PaymentError Unit :=
  match tx.toAddr with
  | none => .error (.Onchain "transaction missing recipient")
  | some toRaw =>
    let to_addr := normalize_address toRaw
    if to_addr ≠ pay_to then
      .error (.Onchain ("transaction recipient mismatch: expected " ++ pay_to ++
        ", got " ++ to_addr))
    else
      match parse_u256_value (tx.value.getD "0x0") with
      | .error e => .error e
      | .ok amount =>
        if amount < required_amount then
          .error (.Onchain ("transaction value " ++ toString amount ++
            " below required " ++ toString required_amount))
        else .ok ()

/-- PaymentRequirements of the SDK x402 module, as constructed and read by
mod.rs (fields as in build_accepted_payment_requirements lines 60-87). -/
structure PaymentRequirements where
  scheme : String
  network : String
  maxAmountRequired : String
  resource : Option String
  description : Option String
  mimeType : Option String
  outputSchema : Option Json
  payTo : String
  maxTimeoutSeconds : Option Nat
  asset : String
  extra : Json

/-- X402Config from src/server/src/x402/config.rs (the string-typed fields;
the facilitator URL is kept as text). -/
structure X402Config where
  enabled : Bool
  scheme_4mica : String
  network : String
  networkV2 : String
  payTo : String
  rpcUrl : String
  asset : String
  facilitatorUrl : String

/-- Modelled from the spec: PaymentEnvelope (spec section 3) is declared in
the x402 model module, which in this source snapshot does not contain the
struct; its fields are exactly the ones mod.rs reads: protocol version,
scheme, network, and the scheme-specific payload. -/
structure PaymentEnvelope where
  x402Version : Nat
  scheme : String
  network : String
  payload : Json

/-- X402_VERSION from mod.rs line 23. -/
def X402_VERSION : Nat := 1

/-- Hex rendering of a value as Rust format with the alternate-x specifier
produces it: 0x followed by lowercase hex digits, 0x0 for zero. -/
def fmtHex (n : Nat) : String := "0x" ++ String.mk (Nat.toDigits 16 n)

/-- build_accepted_payment_requirements from mod.rs lines 52-89: exactly two
entries, the configured credit-tab scheme (with the tab endpoint in extra)
and the literal exact scheme (empty extra), sharing network, amount, payee,
asset and resource. -/
def build_accepted_payment_requirements (config : X402Config)
    (max_amount_required : Nat) (tab_endpoint : String)
    (resource : Option String) : List PaymentRequirements :=
  let m := fmtHex max_amount_required
  [ { scheme := config.scheme_4mica
      network := config.network
      maxAmountRequired := m
      resource := resource
      description := none
      mimeType := none
      outputSchema := none
      payTo := config.payTo
      maxTimeoutSeconds := none
      asset := config.asset
      extra := Json.obj [("tabEndpoint", Json.str tab_endpoint)] },
    { scheme := "exact"
      network := config.network
      maxAmountRequired := m
      resource := resource
      description := none
      mimeType := none
      outputSchema := none
      payTo := config.payTo
      maxTimeoutSeconds := none
      asset := config.asset
      extra := Json.obj [] } ]

/-- The matching predicate of find_matching_payment_requirements, mod.rs
lines 97-101: engine version on the envelope, then scheme and network
equality against the offered requirement. -/
def requirementMatches (envelope : PaymentEnvelope) (req : PaymentRequirements) : Bool :=
  decide (envelope.x402Version = X402_VERSION)
  && decide (req.scheme = envelope.scheme)
  && decide (req.network = envelope.network)

/-- find_matching_payment_requirements from mod.rs lines 91-106: first
matching offered requirement, else the NoMatchingRequirements error carrying
the envelope scheme and network. -/
def find_matching_payment_requirements (envelope : PaymentEnvelope)
    (accepted : List PaymentRequirements) :
    Except PaymentError PaymentRequirements :=
  match accepted.find? (requirementMatches envelope) with
  | some req => .ok req
  | none => .error (.NoMatchingRequirements envelope.scheme envelope.network)

/-- Leading-match test on character lists: the first list opens the second. -/
def leadMatch : List Char → List Char → Bool
  | [], _ => true
  | _ :: _, [] => false
  | n :: ns, h :: hs => decide (n = h) && leadMatch ns hs

/-- Occurrence test on character lists: the needle occurs contiguously at
some position of the haystack. -/
def hasSubChars (ns : List Char) : List Char → Bool
  | [] => leadMatch ns []
  | h :: hs => leadMatch ns (h :: hs) || hasSubChars ns hs

/-- Substring test (Rust str::contains with a string pattern). -/
def containsSub (hay needle : String) : Bool :=
  hasSubChars needle.toList hay.toList

/-- The three settlement routes of the dispatch in settle_payment,
mod.rs lines 531-597. -/
inductive SettleRoute where
  | facilitatorSettle : SettleRoute
  | onchain : SettleRoute
deriving DecidableEq, Repr

/-- The scheme dispatch of settle_payment, mod.rs lines 531-596: lowercase
the envelope scheme; a scheme containing the literal 4mica goes to the
facilitator settle call; the literals exact and x402 go to on-chain
settlement; anything else is the UnsupportedScheme error carrying the
original envelope scheme. -/
def schemeDispatch (envelope : PaymentEnvelope) : Except PaymentError SettleRoute :=
  let scheme := toLowerStr envelope.scheme
  if containsSub scheme "4mica" then .ok .facilitatorSettle
  else if scheme = "exact" ∨ scheme = "x402" then .ok .onchain
  else .error (.UnsupportedScheme envelope.scheme)

/-- The route selected by settle_payment (mod.rs lines 509-600) for a decoded
envelope: match a requirement, then dispatch on the scheme. -/
def settlePaymentRoute (envelope : PaymentEnvelope)
    (accepted : List PaymentRequirements) : Except PaymentError SettleRoute :=
  match find_matching_payment_requirements envelope accepted with
  | .error e => .error e
  | .ok _ => schemeDispatch envelope

/-- The receipt-level checks of settle_onchain, mod.rs lines 483-500, with
the two RPC responses (receipt, and the transaction fetch used only on the
native path) given as inputs: finalization gate, status gate, required
amount parse, address normalization, then native or ERC-20 validation. -/
def settle_onchain_checks (receipt : RpcReceipt)
    (txFetch : Except PaymentError RpcTransaction)
    (requirements : PaymentRequirements) : Except PaymentError Unit :=
  if receipt.blockNumber = none then
    .error (.Onchain "transaction not yet finalized on-chain")
  else if ¬ is_success_status receipt.status then
    .error (.Onchain "transaction reverted")
  else
    match parse_u256_value requirements.maxAmountRequired with
    | .error e => .error e
    | .ok required_amount =>
      let pay_to := normalize_address requirements.payTo
      let asset := normalize_address requirements.asset
      if asset = ZERO_ADDRESS then
        match txFetch with
        | .error e => .error e
        | .ok tx => validate_native_transfer tx pay_to required_amount
      else
        Onchain.validate_erc20_transfer receipt asset pay_to required_amount

/-- FacilitatorClientError from src/server/src/x402/facilitator.rs lines
44-76.  The opaque reqwest and url error sources are embedded as their
display text. -/
inductive FacilitatorClientError where
  | UrlParse : String → String → FacilitatorClientError
  | Http : String → String → FacilitatorClientError
  | JsonDeserialization : String → String → FacilitatorClientError
  | HttpStatus : String → Nat → String → FacilitatorClientError
  | ResponseBodyRead : String → String → FacilitatorClientError
deriving DecidableEq, Repr

/-- The observable outcome of one reqwest POST, as post_json consumes it:
either the send itself failed (transport), or a response arrived with a
status code, a JSON-deserialization outcome for the expected type, and a
body-text read outcome. -/
inductive HttpOutcome (R : Type) where
  | transportFail : String → HttpOutcome R
  | response : Nat → Except String R → Except String String → HttpOutcome R

/-- post_json from facilitator.rs lines 229-268: transport failure maps to
the Http error; status 200 deserializes the body as the success type, a
failure there being the JsonDeserialization error; any other status reads
the body as text (failure there being the ResponseBodyRead error) and
returns the HttpStatus error carrying context, status and body. -/
def post_json {R : Type} (outcome : HttpOutcome R) (context : String) :
    Except FacilitatorClientError R :=
  match outcome with
  | .transportFail e => .error (.Http context e)
  | .response status jsonResult textResult =>
    if status = 200 then
      match jsonResult with
      | .ok v => .ok v
      | .error e => .error (.JsonDeserialization context e)
    else
      match textResult with
      | .ok body => .error (.HttpStatus context status body)
      | .error e => .error (.ResponseBodyRead context e)

/-- FacilitatorClient::verify from facilitator.rs lines 155-161: a POST to
the verify URL with that context label. -/
def verifyPost {R : Type} (outcome : HttpOutcome R) :
    Except FacilitatorClientError R :=
  post_json outcome "POST /verify"

/-- FacilitatorClient::settle from facilitator.rs lines 164-170. -/
def settlePost {R : Type} (outcome : HttpOutcome R) :
    Except FacilitatorClientError R :=
  post_json outcome "POST /settle"

/-- The POST performed by FacilitatorClient::request_tab on a cache miss,
facilitator.rs lines 198-201. -/
def tabPost {R : Type} (outcome : HttpOutcome R) :
    Except FacilitatorClientError R :=
  post_json outcome "POST /tabs"

/-- FacilitatorTabResponse from src/server/src/x402/model.rs lines 99-117. -/
structure FacilitatorTabResponse where
  tabId : String
  userAddress : String
  recipientAddress : String
  assetAddress : String
  nextReqId : Option String
  startTimestamp : Int
  ttlSeconds : Int
deriving DecidableEq, Repr

/-- FacilitatorTabRequestParams from model.rs lines 90-97. -/
structure FacilitatorTabRequestParams where
  userAddress : String
  recipientAddress : String
  erc20Token : String
  ttlSeconds : Option Nat
deriving DecidableEq, Repr

/-- Modelled from the spec: TabKey (spec section 4.4) is declared in the
x402 model module, which in this snapshot does not contain the struct; its
fields are the three addresses request_tab builds it from
(facilitator.rs lines 179-183), compared by exact string equality. -/
structure TabKey where
  userAddress : String
  recipientAddress : String
  assetAddress : String
deriving DecidableEq, Repr

/-- Modelled from the spec: CachedTab (spec section 3, Tab lifecycle) is
declared in the x402 model module, which in this snapshot does not contain
the struct; its fields are the ones request_tab stores
(facilitator.rs lines 213-219): the tab and its local expiry instant. -/
structure CachedTab where
  tab : FacilitatorTabResponse
  expiresAt : Int
deriving DecidableEq, Repr

/-- The tab cache, a map embedded as an association list; keys are unique
(insertion removes the previous binding for the key, as HashMap::insert
replaces it). -/
abbrev TabCache : Type := List (TabKey × CachedTab)

/-- HashMap::get on the embedded cache. -/
def cacheGet (cache : TabCache) (key : TabKey) : Option CachedTab :=
  (List.find? (fun p => decide (p.1 = key)) cache).map (fun p => p.2)

/-- HashMap::insert on the embedded cache: binds the key to the value,
replacing any previous binding. -/
def cacheInsert (cache : TabCache) (key : TabKey) (v : CachedTab) : TabCache :=
  (key, v) :: List.filter (fun p => decide (p.1 ≠ key)) cache

/-- Minimum i64 value. -/
def i64Min : Int := -(2 ^ 63)

/-- Maximum i64 value. -/
def i64Max : Int := 2 ^ 63 - 1

/-- i64::checked_add as used on start_timestamp + ttl_seconds
(facilitator.rs line 206). -/
def i64CheckedAdd (a b : Int) : Option Int :=
  if i64Min ≤ a + b ∧ a + b ≤ i64Max then some (a + b) else none

/-- Earliest timestamp (seconds) representable by a chrono UTC datetime. -/
def chronoMinTs : Int := -8334632937600

/-- Latest timestamp (seconds) representable by a chrono UTC datetime. -/
def chronoMaxTs : Int := 8210298412799

/-- Utc.timestamp_opt(ts, 0).single() of facilitator.rs line 207: the
instant itself when it lies in chrono's representable window, none
otherwise.  Instants are embedded as integer seconds. -/
def chronoTimestampOpt (ts : Int) : Option Int :=
  if chronoMinTs ≤ ts ∧ ts ≤ chronoMaxTs then some ts else none

/-- One hour in seconds (chrono Duration::hours(1)). -/
def oneHour : Int := 3600

/-- The expiry computation of request_tab, facilitator.rs lines 203-209:
the sooner of start_timestamp + ttl_seconds (when it is a valid timestamp)
and the 1-hour cap from the present instant; the cap alone on fallback. -/
def computeExpiry (now startTimestamp ttlSeconds : Int) : Int :=
  let ttlExpiry := (i64CheckedAdd startTimestamp ttlSeconds).bind chronoTimestampOpt
  let maxCacheWindow := now + oneHour
  match ttlExpiry with
  | some ts => min ts maxCacheWindow
  | none => maxCacheWindow

/-- The result of one sequential request_tab call: the returned tab, the
cache afterwards, and whether the facilitator issuer was invoked. -/
structure TabStepResult where
  response : FacilitatorTabResponse
  cache : TabCache
  issuerCalled : Bool

/-- The key request_tab builds from the request, facilitator.rs 179-183. -/
def tabKeyOf (request : FacilitatorTabRequestParams) : TabKey :=
  { userAddress := request.userAddress
    recipientAddress := request.recipientAddress
    assetAddress := request.erc20Token }

/-- FacilitatorClient::request_tab from facilitator.rs lines 175-223, one
sequential (non-concurrent) call: a cached entry with expiry strictly after
the present instant is returned without issuance; otherwise the issuer's
response (given as input) is returned and cached with the computed expiry,
replacing any stale entry. -/
def request_tab (cache : TabCache) (now : Int)
    (request : FacilitatorTabRequestParams)
    (issued : FacilitatorTabResponse) : TabStepResult :=
  match cacheGet cache (tabKeyOf request) with
  | some cached =>
    if now < cached.expiresAt then
      { response := cached.tab, cache := cache, issuerCalled := false }
    else
      { response := issued
        cache := cacheInsert cache (tabKeyOf request)
          { tab := issued
            expiresAt := computeExpiry now issued.startTimestamp issued.ttlSeconds }
        issuerCalled := true }
  | none =>
    { response := issued
      cache := cacheInsert cache (tabKeyOf request)
        { tab := issued
          expiresAt := computeExpiry now issued.startTimestamp issued.ttlSeconds }
      issuerCalled := true }

/-- Lookup of a key in a JSON object (serde_json Value::get on objects). -/
def jsonGet (j : Json) (k : String) : Option Json :=
  match j with
  | .obj m => m.lookup k
  | _ => none

/-- Replacement of the value bound to an existing key of a JSON object. -/
def jsonSet (j : Json) (k : String) (v : Json) : Json :=
  match j with
  | .obj m => .obj (m.map (fun p => if p.1 = k then (k, v) else p))
  | _ => j

/-- Modelled from the spec: the req-id normalization pass of the Payment
Envelope Codec (spec section 4.1) is not present in this source snapshot
(mod.rs lines 108-112 decode without a rewrite; the orchestrator passes the
possibly req-id-normalized header per the spec).  Spec wording: the pass
inspects the payload's claims for the camelCase alias reqId and, if the
canonical snake_case key req_id is absent, copies the alias into the
canonical key, producing a possibly-rewritten envelope plus a boolean
was-normalized flag. -/
def normalizeReqId (e : PaymentEnvelope) : PaymentEnvelope × Bool :=
  match jsonGet e.payload "claims" with
  | some (.obj claims) =>
    match claims.lookup "req_id" with
    | some _ => (e, false)
    | none =>
      match claims.lookup "reqId" with
      | some v =>
        ({ e with payload := jsonSet e.payload "claims" (.obj (("req_id", v) :: claims)) },
          true)
      | none => (e, false)
  | _ => (e, false)

/-! Concrete fixtures used by counterexamples and witnesses. -/

/-- A normalized 40-hex-character payee address. -/
def samplePayee : String := "aaaaaaaaaaaaaaaaaaaaaaaaaaaaaaaaaaaaaaaa"

/-- A normalized 40-hex-character asset address. -/
def sampleAsset : String := "bbbbbbbbbbbbbbbbbbbbbbbbbbbbbbbbbbbbbbbb"

/-- The payee as a full 32-byte (64 hex character) indexed-event topic. -/
def samplePayeeTopic : String :=
  "0x000000000000000000000000aaaaaaaaaaaaaaaaaaaaaaaaaaaaaaaaaaaaaaaa"

/-- A Transfer log to the payee for 0x64 = 100 units of the asset, with a
full-width recipient topic: it satisfies all four conditions of the ERC-20
claims at required amount 100. -/
def goodTransferLog : RpcLog :=
  { address := "0x" ++ sampleAsset
    topics := [ERC20_TRANSFER_TOPIC, "0x01", samplePayeeTopic]
    data := "0x64" }

/-- The same Transfer log carrying only 0x32 = 50 units: it passes the
address/signature/recipient gates but not the amount condition. -/
def lowTransferLog : RpcLog :=
  { address := "0x" ++ sampleAsset
    topics := [ERC20_TRANSFER_TOPIC, "0x01", samplePayeeTopic]
    data := "0x32" }

/-- A Transfer log whose recipient topic is the bare 40-character address
rather than a full 64-character topic: accepted by the on-chain module's
last-40 rule, rejected by the native module's exactly-64 rule. -/
def shortTopicLog : RpcLog :=
  { address := "0x" ++ sampleAsset
    topics := [ERC20_TRANSFER_TOPIC, "0x01", "0x" ++ samplePayee]
    data := "0x64" }

/-- A successful mined receipt holding the low-amount log before the
sufficient one. -/
def lowFirstReceipt : RpcReceipt :=
  { status := some "0x1", blockNumber := some "0x10"
    logs := [lowTransferLog, goodTransferLog] }

/-- A successful mined receipt holding only the short-recipient-topic log. -/
def shortTopicReceipt : RpcReceipt :=
  { status := some "0x1", blockNumber := some "0x10", logs := [shortTopicLog] }

/-- A receipt with neither block number nor status (a pending transaction as
eth_getTransactionReceipt can return it). -/
def pendingReceipt : RpcReceipt :=
  { status := none, blockNumber := none, logs := [] }

/-- An offered requirement with the literal scheme x402. -/
def x402Requirement : PaymentRequirements :=
  { scheme := "x402", network := "n1", maxAmountRequired := "0x64"
    resource := none, description := none, mimeType := none
    outputSchema := none, payTo := "0x" ++ samplePayee
    maxTimeoutSeconds := none, asset := "0x" ++ sampleAsset
    extra := Json.obj [] }

/-- An envelope with the scheme x402 on network n1. -/
def x402Envelope : PaymentEnvelope :=
  { x402Version := 1, scheme := "x402", network := "n1", payload := Json.obj [] }

/-- The default configuration values of src/server/src/x402/config.rs. -/
def defaultConfig : X402Config :=
  { enabled := true
    scheme_4mica := "4mica-credit"
    network := "polygon-amoy"
    networkV2 := "eip155:80002"
    payTo := "0x" ++ samplePayee
    rpcUrl := "https://rpc.ankr.com/polygon_amoy"
    asset := "0x41E94Eb019C0762f9Bfcf9Fb1E58725BfB0e7582"
    facilitatorUrl := "https://x402.4mica.xyz/" }

/-- An envelope using the default credit-tab scheme on the default network. -/
def creditEnvelope : PaymentEnvelope :=
  { x402Version := 1, scheme := "4mica-credit", network := "polygon-amoy"
    payload := Json.obj [] }

/-- A successful mined receipt holding only the fully matching Transfer log. -/
def goodReceipt : RpcReceipt :=
  { status := some "0x1", blockNumber := some "0x10", logs := [goodTransferLog] }

/-- The catalog output at the default configuration, price 100. -/
def defaultAccepted : List PaymentRequirements :=
  build_accepted_payment_requirements defaultConfig 100 "https://example.com/tab" none

/-- A tab request fixture. -/
def sampleTabRequest : FacilitatorTabRequestParams :=
  { userAddress := "u", recipientAddress := "r", erc20Token := "a"
    ttlSeconds := some 86400 }

/-- A tab response fixture issued at time 1000 with a 600 second ttl. -/
def sampleTab1 : FacilitatorTabResponse :=
  { tabId := "t1", userAddress := "u", recipientAddress := "r", assetAddress := "a"
    nextReqId := none, startTimestamp := 1000, ttlSeconds := 600 }

/-- A second tab response fixture. -/
def sampleTab2 : FacilitatorTabResponse :=
  { tabId := "t2", userAddress := "u", recipientAddress := "r", assetAddress := "a"
    nextReqId := none, startTimestamp := 1500, ttlSeconds := 600 }

/-- A third tab response fixture. -/
def sampleTab3 : FacilitatorTabResponse :=
  { tabId := "t3", userAddress := "u", recipientAddress := "r", assetAddress := "a"
    nextReqId := none, startTimestamp := 1700, ttlSeconds := 600 }

deriving instance DecidableEq for Except

/-! Helper lemmas about the native ERC-20 log scan. -/

lemma erc20Scan_cons (asset pay_to : String) (n : Nat) (log : RpcLog) (rest : List RpcLog) :
    Native.erc20Scan asset pay_to n (log :: rest) =
      if Native.strictGate asset pay_to log then
        match parse_u256_value log.data with
        | .error e => .error e
        | .ok v => if n ≤ v then .ok () else Native.erc20Scan asset pay_to n rest
      else Native.erc20Scan asset pay_to n rest := by
  by_cases h1 : normalize_address log.address = asset
  · by_cases h2 : 3 ≤ log.topics.length
    · by_cases h3 : normalize_topic (log.topics[0]?.getD "") = normalize_topic ERC20_TRANSFER_TOPIC
      · cases hpt : parse_topic_address (log.topics[2]?.getD "") with
        | none => simp [Native.erc20Scan, Native.strictGate, h1, h2, h3, hpt, Nat.not_lt.mpr h2]
        | some a =>
          by_cases h4 : a = pay_to
          · subst h4
            simp [Native.erc20Scan, Native.strictGate, h1, h2, h3, hpt, Nat.not_lt.mpr h2]
          · simp [Native.erc20Scan, Native.strictGate, h1, h2, h3, hpt, h4, Nat.not_lt.mpr h2]
      · simp [Native.erc20Scan, Native.strictGate, h1, h2, h3, Nat.not_lt.mpr h2]
    · rw [Nat.not_le] at h2
      simp [Native.erc20Scan, Native.strictGate, h1, h2, Nat.not_le.mpr h2]
  · simp [Native.erc20Scan, Native.strictGate, h1]

lemma satisfiesTransfer_iff (asset pay_to : String) (n : Nat) (log : RpcLog) :
    Native.satisfiesTransfer asset pay_to n log = true ↔
      Native.strictGate asset pay_to log = true ∧
        ∃ v, parse_u256_value log.data = .ok v ∧ n ≤ v := by
  unfold Native.satisfiesTransfer
  cases hp : parse_u256_value log.data <;> simp [hp]

lemma erc20Scan_cons_skip (asset pay_to : String) (n : Nat) (log : RpcLog)
    (rest : List RpcLog) (hg : Native.strictGate asset pay_to log = false) :
    Native.erc20Scan asset pay_to n (log :: rest) =
      Native.erc20Scan asset pay_to n rest := by
  rw [erc20Scan_cons, if_neg]
  simp [hg]

lemma erc20Scan_cons_hit (asset pay_to : String) (n : Nat) (log : RpcLog)
    (rest : List RpcLog) (v : Nat) (hg : Native.strictGate asset pay_to log = true)
    (hv : parse_u256_value log.data = .ok v) :
    Native.erc20Scan asset pay_to n (log :: rest) =
      if n ≤ v then .ok () else Native.erc20Scan asset pay_to n rest := by
  rw [erc20Scan_cons, if_pos hg, hv]

lemma erc20Scan_cons_badData (asset pay_to : String) (n : Nat) (log : RpcLog)
    (rest : List RpcLog) (e : PaymentError)
    (hg : Native.strictGate asset pay_to log = true)
    (he : parse_u256_value log.data = .error e) :
    Native.erc20Scan asset pay_to n (log :: rest) = .error e := by
  rw [erc20Scan_cons, if_pos hg, he]

lemma erc20Scan_ok_of_mem (asset pay_to : String) (n : Nat) (logs : List RpcLog)
    (hparse : ∀ log ∈ logs, Native.strictGate asset pay_to log = true →
      ∃ v, parse_u256_value log.data = .ok v)
    (hex : ∃ log ∈ logs, Native.satisfiesTransfer asset pay_to n log = true) :
    Native.erc20Scan asset pay_to n logs = .ok () := by
  induction logs with
  | nil => rcases hex with ⟨l, hl, _⟩; cases hl
  | cons log rest ih =>
    by_cases hg : Native.strictGate asset pay_to log = true
    · obtain ⟨v, hv⟩ := hparse log (List.mem_cons_self log rest) hg
      rw [erc20Scan_cons_hit asset pay_to n log rest v hg hv]
      by_cases hn : n ≤ v
      · rw [if_pos hn]
      · rw [if_neg hn]
        apply ih
        · exact fun l hl hgl => hparse l (List.mem_cons_of_mem _ hl) hgl
        · rcases hex with ⟨l, hl, hs⟩
          rcases List.mem_cons.mp hl with rfl | hl'
          · rw [satisfiesTransfer_iff] at hs
            rcases hs with ⟨_, w, hw, hnw⟩
            rw [hv] at hw
            cases hw
            exact absurd hnw hn
          · exact ⟨l, hl', hs⟩
    · rw [erc20Scan_cons_skip asset pay_to n log rest (Bool.not_eq_true _ ▸ hg)]
      apply ih
      · exact fun l hl hgl => hparse l (List.mem_cons_of_mem _ hl) hgl
      · rcases hex with ⟨l, hl, hs⟩
        rcases List.mem_cons.mp hl with rfl | hl'
        · rw [satisfiesTransfer_iff] at hs
          exact absurd hs.1 hg
        · exact ⟨l, hl', hs⟩

lemma erc20Scan_ok_elim (asset pay_to : String) (n : Nat) (logs : List RpcLog)
    (h : Native.erc20Scan asset pay_to n logs = .ok ()) :
    ∃ log ∈ logs, Native.strictGate asset pay_to log = true ∧
      ∃ v, parse_u256_value log.data = .ok v ∧ n ≤ v := by
  induction logs with
  | nil => exact absurd h (by simp [Native.erc20Scan])
  | cons log rest ih =>
    by_cases hg : Native.strictGate asset pay_to log = true
    · cases hp : parse_u256_value log.data with
      | error e =>
        rw [erc20Scan_cons_badData asset pay_to n log rest e hg hp] at h
        cases h
      | ok v =>
        rw [erc20Scan_cons_hit asset pay_to n log rest v hg hp] at h
        by_cases hn : n ≤ v
        · exact ⟨log, List.mem_cons_self log rest, hg, v, hp, hn⟩
        · rw [if_neg hn] at h
          obtain ⟨l, hl, hrest⟩ := ih h
          exact ⟨l, List.mem_cons_of_mem _ hl, hrest⟩
    · rw [erc20Scan_cons_skip asset pay_to n log rest (Bool.not_eq_true _ ▸ hg)] at h
      obtain ⟨l, hl, hrest⟩ := ih h
      exact ⟨l, List.mem_cons_of_mem _ hl, hrest⟩

lemma erc20Scan_notFound (asset pay_to : String) (n : Nat) (logs : List RpcLog)
    (hparse : ∀ log ∈ logs, Native.strictGate asset pay_to log = true →
      ∃ v, parse_u256_value log.data = .ok v)
    (hnone : ∀ log ∈ logs, Native.satisfiesTransfer asset pay_to n log = false) :
    Native.erc20Scan asset pay_to n logs =
      .error (.Onchain "erc20 transfer not found in transaction logs") := by
  induction logs with
  | nil => rfl
  | cons log rest ih =>
    by_cases hg : Native.strictGate asset pay_to log = true
    · obtain ⟨v, hv⟩ := hparse log (List.mem_cons_self log rest) hg
      rw [erc20Scan_cons_hit asset pay_to n log rest v hg hv]
      have hnv : ¬ n ≤ v := by
        intro hn
        have hs := (satisfiesTransfer_iff asset pay_to n log).mpr ⟨hg, v, hv, hn⟩
        rw [hnone log (List.mem_cons_self log rest)] at hs
        cases hs
      rw [if_neg hnv]
      exact ih (fun l hl hgl => hparse l (List.mem_cons_of_mem _ hl) hgl)
        (fun l hl => hnone l (List.mem_cons_of_mem _ hl))
    · rw [erc20Scan_cons_skip asset pay_to n log rest (Bool.not_eq_true _ ▸ hg)]
      exact ih (fun l hl hgl => hparse l (List.mem_cons_of_mem _ hl) hgl)
        (fun l hl => hnone l (List.mem_cons_of_mem _ hl))

/-- C1 (corrected): the on-chain module violates the claim.  The receipt
lowFirstReceipt holds a log satisfying all four conditions at required
amount 100 (the good log), yet the on-chain validate_erc20_transfer neither
succeeds nor fails with the transfer-not-found error: it stops at the first
gate-matching log and rejects on its insufficient amount, so the outcome
also depends on the presence of that earlier non-satisfying log (with the
good log alone, it succeeds). -/
theorem c1_counterexample :
    Native.satisfiesTransfer sampleAsset samplePayee 100 goodTransferLog = true
    ∧ goodTransferLog ∈ lowFirstReceipt.logs
    ∧ Onchain.validate_erc20_transfer lowFirstReceipt sampleAsset samplePayee 100 ≠ .ok ()
    ∧ Onchain.validate_erc20_transfer lowFirstReceipt sampleAsset samplePayee 100 ≠
        .error (.Onchain ("no transfer to " ++ samplePayee ++ " found for asset " ++ sampleAsset))
    ∧ Onchain.validate_erc20_transfer
        { lowFirstReceipt with logs := [goodTransferLog] } sampleAsset samplePayee 100 =
        .ok () := by
  decide

/-- C1 (amended): for the native module's ERC-20 matcher, provided every log
passing the address/topic-count/signature/recipient gates has parseable
data, verification succeeds exactly when some log of the receipt satisfies
all four conditions — hence the result is independent of the order and the
presence of other logs — and when no log satisfies them it fails with the
transfer-not-found error. -/
theorem c1_native_erc20_match (receipt : RpcReceipt) (asset pay_to : String) (n : Nat)
    (hparse : ∀ log ∈ receipt.logs, Native.strictGate asset pay_to log = true →
      ∃ v, parse_u256_value log.data = .ok v) :
    ((∃ log ∈ receipt.logs, Native.satisfiesTransfer asset pay_to n log = true) ↔
        Native.validate_erc20_transfer receipt asset pay_to n = .ok ())
    ∧ ((∀ log ∈ receipt.logs, Native.satisfiesTransfer asset pay_to n log = false) →
        Native.validate_erc20_transfer receipt asset pay_to n =
          .error (.Onchain "erc20 transfer not found in transaction logs")) := by
  constructor
  · constructor
    · exact fun hex => erc20Scan_ok_of_mem asset pay_to n receipt.logs hparse hex
    · intro h
      obtain ⟨l, hl, hg, v, hv, hn⟩ := erc20Scan_ok_elim asset pay_to n receipt.logs h
      exact ⟨l, hl, (satisfiesTransfer_iff asset pay_to n l).mpr ⟨hg, v, hv, hn⟩⟩
  · exact fun hnone => erc20Scan_notFound asset pay_to n receipt.logs hparse hnone

/-- C1 witness: the amended theorem applied to the receipt holding exactly
the fully matching Transfer log. -/
theorem c1_native_erc20_match_witness :
    Native.validate_erc20_transfer goodReceipt sampleAsset samplePayee 100 = .ok () :=
  (c1_native_erc20_match goodReceipt sampleAsset samplePayee 100
    (fun log hl _ => by
      rcases List.mem_singleton.mp hl with rfl
      exact ⟨100, by decide⟩)).1.mp
    ⟨goodTransferLog, by decide, by decide⟩

/-- C2 (corrected): the two matchers disagree.  On a receipt whose only log
carries the recipient as a bare 40-character topic, the on-chain module's
matcher (last-40-characters rule) accepts while the native module's matcher
(exactly-64-characters rule) fails with transfer-not-found. -/
theorem c2_counterexample :
    Onchain.validate_erc20_transfer shortTopicReceipt sampleAsset samplePayee 100 = .ok ()
    ∧ Native.validate_erc20_transfer shortTopicReceipt sampleAsset samplePayee 100 =
        .error (.Onchain "erc20 transfer not found in transaction logs")
    ∧ (Except.ok () : Except PaymentError Unit) ≠
        .error (.Onchain "erc20 transfer not found in transaction logs") := by
  decide

/-- C2 (amended): only the native module implements the stricter gating —
whenever its matcher accepts, the receipt holds a log with at least 3
topics, the Transfer signature after identical normalization, a recipient
topic of exactly 64 hex characters decoding to the payee, and data parsing
to at least the required amount. -/
theorem c2_native_strict_gating (receipt : RpcReceipt) (asset pay_to : String) (n : Nat)
    (h : Native.validate_erc20_transfer receipt asset pay_to n = .ok ()) :
    ∃ log ∈ receipt.logs, Native.strictGate asset pay_to log = true ∧
      ∃ v, parse_u256_value log.data = .ok v ∧ n ≤ v :=
  erc20Scan_ok_elim asset pay_to n receipt.logs h

/-- C2 witness: the amended theorem applied to the fully matching receipt. -/
theorem c2_native_strict_gating_witness :
    ∃ log ∈ goodReceipt.logs, Native.strictGate sampleAsset samplePayee log = true ∧
      ∃ v, parse_u256_value log.data = .ok v ∧ 100 ≤ v :=
  c2_native_strict_gating goodReceipt sampleAsset samplePayee 100 (by decide)


/-- C3 counterexample: with the configured credit-tab scheme (default
4mica-credit), an envelope of scheme x402 that matches an offered
requirement is neither the credit-tab scheme (no case-insensitive 4mica
substring) nor exact, so the claim demands the UnsupportedScheme rejection;
settle_payment instead routes it to on-chain settlement. -/
theorem c3_counterexample :
    settlePaymentRoute x402Envelope [x402Requirement] = .ok .onchain
    ∧ containsSub (toLowerStr x402Envelope.scheme) "4mica" = false
    ∧ x402Envelope.scheme ≠ "exact"
    ∧ (Except.ok SettleRoute.onchain : Except PaymentError SettleRoute) ≠
        .error (.UnsupportedScheme "x402") := by
  decide

/-- C3 (amended): for every decodable envelope that matches an offered
requirement, settle_payment dispatches on the literal substring 4mica of
the lowercased envelope scheme (not on the configured identifier): if the
lowercased scheme contains 4mica it calls the facilitator settle
operation; if it equals exact or x402 it settles on-chain; otherwise it
rejects with UnsupportedScheme carrying the envelope's scheme. -/
theorem c3_scheme_dispatch (envelope : PaymentEnvelope) (accepted : List PaymentRequirements)
    (req : PaymentRequirements)
    (hmatch : find_matching_payment_requirements envelope accepted = .ok req) :
    (containsSub (toLowerStr envelope.scheme) "4mica" = true →
      settlePaymentRoute envelope accepted = .ok .facilitatorSettle)
    ∧ (containsSub (toLowerStr envelope.scheme) "4mica" = false →
        (toLowerStr envelope.scheme = "exact" ∨ toLowerStr envelope.scheme = "x402") →
        settlePaymentRoute envelope accepted = .ok .onchain)
    ∧ (containsSub (toLowerStr envelope.scheme) "4mica" = false →
        toLowerStr envelope.scheme ≠ "exact" → toLowerStr envelope.scheme ≠ "x402" →
        settlePaymentRoute envelope accepted = .error (.UnsupportedScheme envelope.scheme)) := by
  unfold settlePaymentRoute
  rw [hmatch]
  refine ⟨fun h1 => ?_, fun h1 h2 => ?_, fun h1 h2 h3 => ?_⟩
  · simp [schemeDispatch, h1]
  · simp [schemeDispatch, h1, h2]
  · simp [schemeDispatch, h1, h2, h3]

/-- C3 witness: the default-config credit-tab envelope is routed to the
facilitator settle call. -/
theorem c3_scheme_dispatch_witness :
    settlePaymentRoute creditEnvelope defaultAccepted = .ok .facilitatorSettle :=
  (c3_scheme_dispatch creditEnvelope defaultAccepted _ rfl).1 (by decide)


lemma find?_characterize {α : Type} (p : α → Bool) (l : List α) :
    ((∀ x ∈ l, p x = false) ∧ l.find? p = none)
    ∨ ∃ l1 a l2, l = l1 ++ a :: l2 ∧ (∀ x ∈ l1, p x = false) ∧ p a = true ∧
        l.find? p = some a := by
  induction l with
  | nil => exact Or.inl ⟨by simp, rfl⟩
  | cons h t ih =>
    by_cases ph : p h = true
    · exact Or.inr ⟨[], h, t, rfl, by simp, ph, by rw [List.find?_cons_of_pos _ ph]⟩
    · have ph' : p h = false := by simpa using ph
      rcases ih with ⟨hall, hnone⟩ | ⟨l1, a, l2, heq, hl1, pa, hfind⟩
      · refine Or.inl ⟨?_, ?_⟩
        · intro x hx
          rcases List.mem_cons.mp hx with rfl | hx'
          · exact ph'
          · exact hall x hx'
        · rw [List.find?_cons_of_neg _ ph, hnone]
      · refine Or.inr ⟨h :: l1, a, l2, by rw [heq]; rfl, ?_, pa, ?_⟩
        · intro x hx
          rcases List.mem_cons.mp hx with rfl | hx'
          · exact ph'
          · exact hl1 x hx'
        · rw [List.find?_cons_of_neg _ ph, hfind]

/-- C4: match_requirement is total — it returns either the first offered
requirement whose scheme and network equal the envelope's while the
envelope version equals the engine version, or the NoMatchingRequirements
error carrying the envelope's scheme and network (version mismatch and no
scheme/network match both land there); and for an offered set built by the
catalog, a version-1 envelope whose scheme/network equals one of the two
generated entries always matches. -/
theorem c4_requirement_matching (envelope : PaymentEnvelope)
    (accepted : List PaymentRequirements) (config : X402Config) (amt : Nat)
    (te : String) (res : Option String) :
    (((∀ r ∈ accepted, requirementMatches envelope r = false) ∧
        find_matching_payment_requirements envelope accepted =
          .error (.NoMatchingRequirements envelope.scheme envelope.network))
      ∨ ∃ l1 r l2, accepted = l1 ++ r :: l2
          ∧ (∀ x ∈ l1, requirementMatches envelope x = false)
          ∧ requirementMatches envelope r = true
          ∧ find_matching_payment_requirements envelope accepted = .ok r)
    ∧ (∀ r, requirementMatches envelope r = true ↔
        envelope.x402Version = X402_VERSION ∧ r.scheme = envelope.scheme ∧
          r.network = envelope.network)
    ∧ (envelope.x402Version = X402_VERSION → envelope.network = config.network →
        (envelope.scheme = config.scheme_4mica ∨ envelope.scheme = "exact") →
        ∃ r, find_matching_payment_requirements envelope
          (build_accepted_payment_requirements config amt te res) = .ok r) := by
  refine ⟨?_, ?_, ?_⟩
  · rcases find?_characterize (requirementMatches envelope) accepted with
      ⟨hall, hnone⟩ | ⟨l1, r, l2, heq, hl1, pr, hfind⟩
    · exact Or.inl ⟨hall, by unfold find_matching_payment_requirements; rw [hnone]⟩
    · exact Or.inr ⟨l1, r, l2, heq, hl1, pr,
        by unfold find_matching_payment_requirements; rw [hfind]⟩
  · intro r
    simp [requirementMatches, and_assoc]
  · intro hv hn hs
    have hex : ∃ x ∈ build_accepted_payment_requirements config amt te res,
        requirementMatches envelope x = true := by
      rcases hs with hs | hs
      · refine ⟨(build_accepted_payment_requirements config amt te res).head (by
          simp [build_accepted_payment_requirements]), ?_, ?_⟩
        · exact List.head_mem _
        · simp [build_accepted_payment_requirements, requirementMatches, hv, hs.symm, hn.symm]
      · refine ⟨(build_accepted_payment_requirements config amt te res).getLast (by
          simp [build_accepted_payment_requirements]), ?_, ?_⟩
        · exact List.getLast_mem _
        · simp [build_accepted_payment_requirements, requirementMatches, hv, hs.symm, hn.symm]
    cases hf : (build_accepted_payment_requirements config amt te res).find?
        (requirementMatches envelope) with
    | none =>
      rw [List.find?_eq_none] at hf
      rcases hex with ⟨x, hx, hpx⟩
      exact absurd hpx (by simpa using hf x hx)
    | some r =>
      exact ⟨r, by unfold find_matching_payment_requirements; rw [hf]⟩

/-- C4 witness: the catalog guarantee instantiated at the default
configuration and the credit-tab envelope. -/
theorem c4_requirement_matching_witness :
    ∃ r, find_matching_payment_requirements creditEnvelope
      (build_accepted_payment_requirements defaultConfig 100 "https://example.com/tab" none) =
        .ok r :=
  (c4_requirement_matching creditEnvelope [] defaultConfig 100 "https://example.com/tab"
    none).2.2 rfl rfl (Or.inl rfl)


/-- C5: native-transfer verification, for a transaction whose normalized
recipient equals the payee and whose value parses, rejects with the amount
error exactly when the value is strictly below the required amount and
accepts whenever it is greater or equal — the boundary sits at the
greater-or-equal comparison. -/
theorem c5_native_amount_gate (tx : RpcTransaction) (pay_to : String) (n v : Nat)
    (toRaw : String) (h1 : tx.toAddr = some toRaw)
    (h2 : normalize_address toRaw = pay_to)
    (h3 : parse_u256_value (tx.value.getD "0x0") = .ok v) :
    (v < n → validate_native_transfer tx pay_to n =
      .error (.Onchain ("transaction value " ++ toString v ++ " below required " ++ toString n)))
    ∧ (n ≤ v → validate_native_transfer tx pay_to n = .ok ()) := by
  constructor <;> intro h <;>
    simp [validate_native_transfer, h1, h2, h3, h, Nat.not_lt.mpr, Nat.not_le.mpr]

/-- C5 witness: value 0x64 = 100 accepted at required amount 100 (the
boundary), value 0x63 = 99 rejected with the amount error. -/
theorem c5_native_amount_gate_witness :
    (validate_native_transfer { toAddr := some ("0x" ++ samplePayee), value := some "0x64" }
        samplePayee 100 = .ok ())
    ∧ (validate_native_transfer { toAddr := some ("0x" ++ samplePayee), value := some "0x63" }
        samplePayee 100 =
      .error (.Onchain ("transaction value " ++ toString 99 ++ " below required " ++ toString 100))) :=
  ⟨(c5_native_amount_gate _ samplePayee 100 100 _ rfl (by decide) (by decide)).2 (by decide),
   (c5_native_amount_gate _ samplePayee 100 99 _ rfl (by decide) (by decide)).1 (by decide)⟩

/-- C10 counterexample: a receipt with absent status but also absent block
number is rejected by the earlier finalization gate, with a different error
text than transaction reverted — the claim as stated, quantified over every
receipt with absent or malformed status, fails there. -/
theorem c10_counterexample :
    pendingReceipt.status = none
    ∧ settle_onchain_checks pendingReceipt (.ok { toAddr := none, value := none })
        x402Requirement = .error (.Onchain "transaction not yet finalized on-chain")
    ∧ (Except.error (PaymentError.Onchain "transaction not yet finalized on-chain") :
        Except PaymentError Unit) ≠ .error (.Onchain "transaction reverted") := by
  decide

/-- C10 (amended): every receipt carrying a block number whose status is
absent, or whose status text parses as neither 0x-prefixed hexadecimal nor
decimal, is rejected with the transaction-reverted error — the identical
outcome to an explicit 0x0 status — never acceptance and never another
error. -/
theorem c10_status_gate (receipt : RpcReceipt)
    (txFetch : Except PaymentError RpcTransaction)
    (requirements : PaymentRequirements) (b : String)
    (hb : receipt.blockNumber = some b)
    (hstatus : receipt.status = none ∨
      ∃ s e, receipt.status = some s ∧ parse_u256_value s = .error e) :
    settle_onchain_checks receipt txFetch requirements =
      .error (.Onchain "transaction reverted")
    ∧ settle_onchain_checks { receipt with status := some "0x0" } txFetch requirements =
        settle_onchain_checks receipt txFetch requirements := by
  have hss : is_success_status receipt.status = false := by
    rcases hstatus with h | ⟨s, e, hs, hp⟩
    · rw [h]; rfl
    · rw [hs]; simp [is_success_status, hp]
  have hzero : is_success_status (some "0x0") = false := by decide
  have left : settle_onchain_checks receipt txFetch requirements =
      .error (.Onchain "transaction reverted") := by
    unfold settle_onchain_checks
    rw [if_neg (by rw [hb]; simp), if_pos (by rw [hss]; simp)]
  have right : settle_onchain_checks { receipt with status := some "0x0" } txFetch
      requirements = .error (.Onchain "transaction reverted") := by
    unfold settle_onchain_checks
    rw [if_neg (by simp [hb]), if_pos (by rw [hzero]; simp)]
  exact ⟨left, by rw [left, right]⟩

/-- C10 witness: a mined receipt with absent status is rejected as
reverted. -/
theorem c10_status_gate_witness :
    settle_onchain_checks { status := none, blockNumber := some "0x10", logs := [] }
      (.ok { toAddr := none, value := none }) x402Requirement =
      .error (.Onchain "transaction reverted") :=
  (c10_status_gate _ _ x402Requirement "0x10" rfl (Or.inl rfl)).1



/-- C8: every facilitator-client POST operation (verify, settle, and the
tab request on a cache miss) goes through post_json, which succeeds exactly
when the HTTP status is 200 and the body deserializes; any other status
with a readable body yields the HttpStatus error carrying status, body and
the context label; and transport, JSON-deserialization and body-read
failures are three pairwise distinct error kinds. -/
theorem c8_post_json_contract {R : Type} (context : String) (status : Nat)
    (jr : Except String R) (tr : Except String String) (e body : String) (v : R) :
    (∀ o : HttpOutcome R, verifyPost o = post_json o "POST /verify"
      ∧ settlePost o = post_json o "POST /settle" ∧ tabPost o = post_json o "POST /tabs")
    ∧ (post_json (.response status jr tr) context = .ok v ↔ status = 200 ∧ jr = .ok v)
    ∧ (status ≠ 200 → tr = .ok body →
        post_json (.response status jr tr) context =
          .error (.HttpStatus context status body))
    ∧ (post_json (HttpOutcome.transportFail e : HttpOutcome R) context =
        .error (.Http context e))
    ∧ (status = 200 → jr = .error e →
        post_json (.response status jr tr) context =
          .error (.JsonDeserialization context e))
    ∧ (status ≠ 200 → tr = .error e →
        post_json (.response status jr tr) context =
          .error (.ResponseBodyRead context e))
    ∧ (∀ c1 s1 c2 s2, FacilitatorClientError.Http c1 s1 ≠ .JsonDeserialization c2 s2)
    ∧ (∀ c1 s1 c2 s2, FacilitatorClientError.Http c1 s1 ≠ .ResponseBodyRead c2 s2)
    ∧ (∀ c1 s1 c2 s2,
        FacilitatorClientError.JsonDeserialization c1 s1 ≠ .ResponseBodyRead c2 s2)
    ∧ (∀ c1 s1 c2 n2 b2, FacilitatorClientError.Http c1 s1 ≠ .HttpStatus c2 n2 b2) := by
  refine ⟨fun o => ⟨rfl, rfl, rfl⟩, ?_, ?_, rfl, ?_, ?_, ?_, ?_, ?_, ?_⟩
  · by_cases hs : status = 200
    · cases jr <;> simp [post_json, hs]
    · cases tr <;> simp [post_json, hs]
  · intro hs ht
    cases jr <;> simp [post_json, hs, ht]
  · intro hs hj
    simp [post_json, hs, hj]
  · intro hs ht
    cases jr <;> simp [post_json, hs, ht]
  · intro c1 s1 c2 s2 h
    cases h
  · intro c1 s1 c2 s2 h
    cases h
  · intro c1 s1 c2 s2 h
    cases h
  · intro c1 s1 c2 n2 b2 h
    cases h

/-- C8 witness: a 404 settle response maps to the HttpStatus error and a
200 verify response deserializes to the success value. -/
theorem c8_post_json_contract_witness :
    post_json (HttpOutcome.response 404 (Except.ok 7) (Except.ok "not found"))
        "POST /settle" = .error (.HttpStatus "POST /settle" 404 "not found")
    ∧ post_json (HttpOutcome.response 200 (Except.ok 7)
        (Except.ok "")) "POST /verify" = (.ok 7 : Except FacilitatorClientError Nat) :=
  ⟨((c8_post_json_contract "POST /settle" 404 (Except.ok 7) (Except.ok "not found")
      "e" "not found" 7).2.2.1 (by decide) rfl),
   ((c8_post_json_contract "POST /verify" 200 (Except.ok 7) (Except.ok "")
      "e" "" 7).2.1.mpr ⟨rfl, rfl⟩)⟩

lemma lookup_mapReplace (mm : List (String × Json)) (k : String) (v : Json) (w : Json)
    (h : mm.lookup k = some w) :
    (mm.map (fun p => if p.1 = k then (k, v) else p)).lookup k = some v := by
  induction mm with
  | nil => cases h
  | cons p t ih =>
    obtain ⟨a, b⟩ := p
    by_cases hk : a = k
    · subst hk
      rw [List.map_cons, if_pos rfl]
      simp [List.lookup]
    · have hk' : (k == a) = false := beq_eq_false_iff_ne.mpr (fun hh => hk hh.symm)
      rw [List.lookup, hk'] at h
      rw [List.map_cons, if_neg hk, List.lookup, hk']
      exact ih h

lemma normalizeReqId_cases (e : PaymentEnvelope) :
    (∃ claims v, jsonGet e.payload "claims" = some (.obj claims)
      ∧ claims.lookup "req_id" = none ∧ claims.lookup "reqId" = some v
      ∧ normalizeReqId e =
          ({ e with payload := jsonSet e.payload "claims" (.obj (("req_id", v) :: claims)) },
            true))
    ∨ normalizeReqId e = (e, false) := by
  unfold normalizeReqId
  cases hj : jsonGet e.payload "claims" with
  | none => exact Or.inr rfl
  | some j =>
    cases j with
    | obj m =>
      dsimp only
      cases hr : m.lookup "req_id" with
      | some w => exact Or.inr rfl
      | none =>
        dsimp only
        cases hq : m.lookup "reqId" with
        | none => exact Or.inr rfl
        | some v => exact Or.inl ⟨m, v, rfl, hr, hq, rfl⟩
    | null => exact Or.inr rfl
    | bool b => exact Or.inr rfl
    | num i => exact Or.inr rfl
    | str s => exact Or.inr rfl
    | arr l => exact Or.inr rfl


lemma jsonGet_jsonSet_of_get (payload : Json) (k : String) (old new : Json)
    (h : jsonGet payload k = some old) :
    jsonGet (jsonSet payload k new) k = some new := by
  cases payload with
  | obj mm => exact lookup_mapReplace mm k new old h
  | null => cases h
  | bool b => cases h
  | num i => cases h
  | str s => cases h
  | arr l => cases h

/-- C9: the req-id normalization pass copies the camelCase reqId claim
into the canonical req_id key exactly when the canonical key is absent,
returning the rewritten envelope with a true flag and the unchanged
envelope with a false flag otherwise; and it is idempotent — normalizing a
normalized envelope returns not-normalized with the structure unchanged. -/
theorem c9_reqid_normalization (e : PaymentEnvelope)
    (claims : List (String × Json)) (v : Json) :
    (jsonGet e.payload "claims" = some (.obj claims) →
      claims.lookup "req_id" = none → claims.lookup "reqId" = some v →
      normalizeReqId e =
        ({ e with payload := jsonSet e.payload "claims" (.obj (("req_id", v) :: claims)) },
          true))
    ∧ ((normalizeReqId e).2 = false → (normalizeReqId e).1 = e)
    ∧ ((normalizeReqId e).2 = true → ∃ m w, jsonGet e.payload "claims" = some (.obj m)
        ∧ m.lookup "req_id" = none ∧ m.lookup "reqId" = some w)
    ∧ normalizeReqId (normalizeReqId e).1 = ((normalizeReqId e).1, false) := by
  refine ⟨?_, ?_, ?_, ?_⟩
  · intro h1 h2 h3
    unfold normalizeReqId
    rw [h1]
    dsimp only
    rw [h2]
    dsimp only
    rw [h3]
  · rcases normalizeReqId_cases e with ⟨m, w, hj, hr, hq, hEq⟩ | hEq
    · intro h
      rw [hEq] at h
      cases h
    · intro _
      rw [hEq]
  · rcases normalizeReqId_cases e with ⟨m, w, hj, hr, hq, hEq⟩ | hEq
    · exact fun _ => ⟨m, w, hj, hr, hq⟩
    · intro h
      rw [hEq] at h
      cases h
  · rcases normalizeReqId_cases e with ⟨m, w, hj, hr, hq, hEq⟩ | hEq
    · rw [hEq]
      have hp : jsonGet (jsonSet e.payload "claims" (.obj (("req_id", w) :: m)))
          "claims" = some (.obj (("req_id", w) :: m)) :=
        jsonGet_jsonSet_of_get e.payload "claims" (.obj m) _ hj
      show normalizeReqId _ = _
      unfold normalizeReqId
      rw [hp]
      dsimp only
      simp [List.lookup]
    · rw [hEq]
      exact hEq

/-- C9 witness: an envelope whose claims hold only the reqId alias is
rewritten with the canonical key added and flagged as normalized. -/
theorem c9_reqid_normalization_witness :
    normalizeReqId
        { x402Version := 1, scheme := "4mica-credit", network := "polygon-amoy",
          payload := Json.obj [("claims", Json.obj [("reqId", Json.str "9")])] } =
      ({ x402Version := 1, scheme := "4mica-credit", network := "polygon-amoy",
          payload := Json.obj
            [("claims", Json.obj [("req_id", Json.str "9"), ("reqId", Json.str "9")])] },
        true) :=
  (c9_reqid_normalization _ [("reqId", Json.str "9")] (Json.str "9")).1 rfl rfl rfl


lemma cacheGet_cacheInsert_same (c : TabCache) (k : TabKey) (v : CachedTab) :
    cacheGet (cacheInsert c k v) k = some v := by
  simp [cacheGet, cacheInsert, List.find?]

/-- C6: for a fixed key, starting from a cache with no live entry for it,
the first sequential get-or-issue call invokes the issuer and stores the
tab; a second call made before the stored expiry returns the same tab from
the cache without invoking the issuer and leaves the cache unchanged (so
the pair of calls performs exactly one issuance); a third call at or after
the expiry instant invokes the issuer again and replaces the stale entry. -/
theorem c6_tab_cache_sequential (c0 : TabCache) (request : FacilitatorTabRequestParams)
    (t1 t2 t3 : Int) (r1 r2 r3 : FacilitatorTabResponse)
    (hfresh : ∀ cached, cacheGet c0 (tabKeyOf request) = some cached →
      cached.expiresAt ≤ t1)
    (h2 : t2 < computeExpiry t1 r1.startTimestamp r1.ttlSeconds)
    (h3 : computeExpiry t1 r1.startTimestamp r1.ttlSeconds ≤ t3) :
    (request_tab c0 t1 request r1).issuerCalled = true
    ∧ (request_tab c0 t1 request r1).response = r1
    ∧ (request_tab (request_tab c0 t1 request r1).cache t2 request r2).issuerCalled = false
    ∧ (request_tab (request_tab c0 t1 request r1).cache t2 request r2).response = r1
    ∧ (request_tab (request_tab c0 t1 request r1).cache t2 request r2).cache =
        (request_tab c0 t1 request r1).cache
    ∧ (request_tab
        (request_tab (request_tab c0 t1 request r1).cache t2 request r2).cache
        t3 request r3).issuerCalled = true
    ∧ (request_tab
        (request_tab (request_tab c0 t1 request r1).cache t2 request r2).cache
        t3 request r3).response = r3
    ∧ cacheGet (request_tab
        (request_tab (request_tab c0 t1 request r1).cache t2 request r2).cache
        t3 request r3).cache (tabKeyOf request) =
        some ⟨r3, computeExpiry t3 r3.startTimestamp r3.ttlSeconds⟩ := by
  have hs1 : request_tab c0 t1 request r1 =
      { response := r1
        cache := cacheInsert c0 (tabKeyOf request)
          ⟨r1, computeExpiry t1 r1.startTimestamp r1.ttlSeconds⟩
        issuerCalled := true } := by
    unfold request_tab
    cases hc : cacheGet c0 (tabKeyOf request) with
    | none => rfl
    | some cached =>
      dsimp only
      rw [if_neg (Int.not_lt.mpr (hfresh cached hc))]
  have hget1 : cacheGet (request_tab c0 t1 request r1).cache (tabKeyOf request) =
      some ⟨r1, computeExpiry t1 r1.startTimestamp r1.ttlSeconds⟩ := by
    rw [hs1]
    exact cacheGet_cacheInsert_same c0 (tabKeyOf request) _
  have hs2 : request_tab (request_tab c0 t1 request r1).cache t2 request r2 =
      { response := r1
        cache := (request_tab c0 t1 request r1).cache
        issuerCalled := false } := by
    conv_lhs => rw [request_tab.eq_def, hget1]
    dsimp only
    rw [if_pos h2]
  have hget2 : cacheGet (request_tab (request_tab c0 t1 request r1).cache t2 request
      r2).cache (tabKeyOf request) =
      some ⟨r1, computeExpiry t1 r1.startTimestamp r1.ttlSeconds⟩ := by
    rw [hs2]
    exact hget1
  have hs3 : request_tab
      (request_tab (request_tab c0 t1 request r1).cache t2 request r2).cache
      t3 request r3 =
      { response := r3
        cache := cacheInsert
          (request_tab (request_tab c0 t1 request r1).cache t2 request r2).cache
          (tabKeyOf request)
          ⟨r3, computeExpiry t3 r3.startTimestamp r3.ttlSeconds⟩
        issuerCalled := true } := by
    conv_lhs => rw [request_tab.eq_def, hget2]
    dsimp only
    rw [if_neg (Int.not_lt.mpr h3)]
  refine ⟨by rw [hs1], by rw [hs1], by rw [hs2], by rw [hs2], by rw [hs2], by rw [hs3],
    by rw [hs3], ?_⟩
  rw [hs3]
  exact cacheGet_cacheInsert_same _ (tabKeyOf request) _

/-- C6 witness: concrete sequential calls at times 1000 and 1500 against
an expiry of 1600 — one issuance then a cache hit. -/
theorem c6_tab_cache_sequential_witness :
    (request_tab [] 1000 sampleTabRequest sampleTab1).issuerCalled = true
    ∧ (request_tab (request_tab [] 1000 sampleTabRequest sampleTab1).cache 1500
        sampleTabRequest sampleTab2).issuerCalled = false :=
  ⟨(c6_tab_cache_sequential [] sampleTabRequest 1000 1500 1700 sampleTab1 sampleTab2
      sampleTab3 (fun cached h => by cases h) (by decide) (by decide)).1,
   (c6_tab_cache_sequential [] sampleTabRequest 1000 1500 1700 sampleTab1 sampleTab2
      sampleTab3 (fun cached h => by cases h) (by decide) (by decide)).2.2.1⟩

/-- C7: the expiry stored with every inserted tab equals
min(start_timestamp + ttl_seconds, insertion time + 1 hour) whenever the
sum is a valid timestamp, equals exactly the 1-hour cap otherwise, is in
particular never later than one hour after insertion; and the bound is
preserved by every cache step. -/
theorem c7_tab_cache_expiry (now start ttl bound : Int) (c : TabCache)
    (request : FacilitatorTabRequestParams) (issued : FacilitatorTabResponse) :
    computeExpiry now start ttl ≤ now + oneHour
    ∧ (∀ ts, (i64CheckedAdd start ttl).bind chronoTimestampOpt = some ts →
        computeExpiry now start ttl = min ts (now + oneHour))
    ∧ ((i64CheckedAdd start ttl).bind chronoTimestampOpt = none →
        computeExpiry now start ttl = now + oneHour)
    ∧ ((∀ p ∈ c, p.2.expiresAt ≤ bound) → now + oneHour ≤ bound →
        ∀ p ∈ (request_tab c now request issued).cache, p.2.expiresAt ≤ bound) := by
  refine ⟨?_, ?_, ?_, ?_⟩
  · unfold computeExpiry
    cases (i64CheckedAdd start ttl).bind chronoTimestampOpt with
    | none => exact le_refl _
    | some ts => exact min_le_right _ _
  · intro ts h
    unfold computeExpiry
    rw [h]
  · intro h
    unfold computeExpiry
    rw [h]
  · intro hc hbound p hp
    have hnew : (⟨issued, computeExpiry now issued.startTimestamp issued.ttlSeconds⟩ :
        CachedTab).expiresAt ≤ bound := by
      refine le_trans ?_ hbound
      unfold computeExpiry
      cases (i64CheckedAdd issued.startTimestamp issued.ttlSeconds).bind
          chronoTimestampOpt with
      | none => exact le_refl _
      | some ts => exact min_le_right _ _
    unfold request_tab at hp
    cases hg : cacheGet c (tabKeyOf request) with
    | none =>
      rw [hg] at hp
      dsimp only [cacheInsert] at hp
      rcases List.mem_cons.mp hp with rfl | hp'
      · exact hnew
      · exact hc p (List.mem_of_mem_filter hp')
    | some cached =>
      rw [hg] at hp
      dsimp only at hp
      by_cases hlive : now < cached.expiresAt
      · rw [if_pos hlive] at hp
        exact hc p hp
      · rw [if_neg hlive] at hp
        dsimp only [cacheInsert] at hp
        rcases List.mem_cons.mp hp with rfl | hp'
        · exact hnew
        · exact hc p (List.mem_of_mem_filter hp')

/-- C7 witness: at insertion time 1000 with start 1000 and ttl 600 the
expiry is capped by min with 4600, giving 1600. -/
theorem c7_tab_cache_expiry_witness :
    computeExpiry 1000 1000 600 ≤ 1000 + oneHour
    ∧ computeExpiry 1000 1000 600 = min 1600 (1000 + oneHour) :=
  ⟨(c7_tab_cache_expiry 1000 1000 600 5000 [] sampleTabRequest sampleTab1).1,
   (c7_tab_cache_expiry 1000 1000 600 5000 [] sampleTabRequest sampleTab1).2.1 1600
      (by decide)⟩


end X402
